import Mathlib

/-!
# Verification of the pr-duration core pipeline

Shallow embedding of the pull-request discovery and duration-aggregation
pipeline of the `pr-duration` tool (`src/businessLogic.js` plus its CLI
entry point).  Remote API behaviour (GitHub search, detail and timeline
endpoints, and the external `parse-duration` library and host date parser)
is modelled by explicit function parameters or, where the claims pin down
its behaviour, by definitions marked as modelled from the spec.

JavaScript numbers are modelled by `ℚ` (the claims here never depend on
floating-point rounding), instants (`Date` values) by `Int` milliseconds
since the Unix epoch, and fallible code by `Except`.
-/

namespace PRDuration

/-- An error raised by the remote API transport (Octokit), carrying the HTTP
status and the error message. -/
structure ApiError where
  status : Nat
  message : String
deriving DecidableEq, Repr

/-- The error taxonomy of the tool itself (spec section 7). -/
inductive Err where
  | invalidPeriodFormat
  | invalidDateFormat
  | queryabilityCheckFailed (username : String) (cause : String)
  | remoteRequestFailed (msg : String)
deriving DecidableEq, Repr

/-- Decidable equality of `Except` results, for evaluating witnesses. -/
instance exceptDecEq {ε α : Type} [DecidableEq ε] [DecidableEq α] :
    DecidableEq (Except ε α) := fun x y =>
  match x, y with
  | .ok a, .ok b =>
    if h : a = b then isTrue (by rw [h])
    else isFalse (by intro hc; cases hc; exact h rfl)
  | .error a, .error b =>
    if h : a = b then isTrue (by rw [h])
    else isFalse (by intro hc; cases hc; exact h rfl)
  | .ok _, .error _ => isFalse (by intro hc; cases hc)
  | .error _, .ok _ => isFalse (by intro hc; cases hc)

/-- A search-result item: the search API returns issues representing PRs,
of which the code uses `pull_request.url` and `user.login`. -/
structure SearchItem where
  login : String
  url : String
deriving DecidableEq, Repr

/-- A timeline event, with its `event` kind string and `created_at` instant. -/
structure TimelineEvent where
  event : String
  created_at : Int
deriving DecidableEq, Repr

/-- The pull-request detail record fetched per reference item
(`GET pull_request.url`): the fields the aggregator reads. -/
structure PRDetail where
  merged_at : Option Int
  created_at : Int
  owner : String
  repoName : String
  number : Nat
deriving DecidableEq, Repr

/-- A computed per-PR record (the entries of `prDataList`).  The JS code
stores `durationHours.toFixed(2)` (a presentation string); the model keeps
the full-precision signed value that the string is rendered from. -/
structure DurationRecord where
  url : String
  readyDate : Int
  mergedDate : Int
  durationHours : ℚ
deriving DecidableEq, Repr

/-- The aggregate returned by `calculateAverageDuration`. -/
structure AggregateResult where
  totalDurationHours : ℚ
  count : Nat
  prDataList : List DurationRecord
deriving DecidableEq, Repr

/-! ## Duration Parser (`parsePeriod`, businessLogic.js lines 24-30)

`parse-duration` is an external library (not part of this repository); the
code receives its result `durationMs` and rejects it with the JS truthiness
test `!durationMs`, which is true exactly for `null` (unparseable), `0`
(and `NaN`, which the `Option Int` model cannot produce). -/

/-- `parsePeriod`, parameterized by the external parser (`none` models the
library returning `null`) and by the current time `now` (`Date.now()`). -/
def parsePeriod (parseDur : String → Option Int) (now : Int) (periodStr : String) :
    Except Err Int :=
  match parseDur periodStr with
  | none => .error .invalidPeriodFormat
  | some d => if d = 0 then .error .invalidPeriodFormat else .ok (now - d)

/-- Modelled from the spec: the external `parse-duration` library, which is
not part of this repository.  The spec (section 4.1) gives the unit
abbreviations days/weeks/months/years with fixed-length approximations
(month = year/12, year = 365.25 days), and the claims give `"-2d"` as a
string parsing to a negative duration; only the strings the claims exercise
are modelled, everything else maps to `none` (the library's `null`). -/
def parseDurationModel (s : String) : Option Int :=
  if s = "2d" then some 172800000
  else if s = "1w" then some 604800000
  else if s = "3mo" then some 7889400000
  else if s = "1y" then some 31557600000
  else if s = "-2d" then some (-172800000)
  else if s = "0s" then some 0
  else none

/-! ## Date Parser (`parseDate`, businessLogic.js lines 35-41) -/

/-- Leap year in the proleptic Gregorian calendar. -/
def isLeap (y : Nat) : Bool :=
  (y % 4 = 0 && y % 100 != 0) || y % 400 = 0

/-- Length of month `m` (1-12) of year `y`. -/
def daysInMonth (y m : Nat) : Nat :=
  if m = 2 then (if isLeap y then 29 else 28)
  else if m = 4 || m = 6 || m = 9 || m = 11 then 30
  else 31

/-- Days in the months strictly before month `m` of a year (leap flag `l`). -/
def daysBeforeMonth (l : Bool) (m : Nat) : Nat :=
  let feb := if l then 29 else 28
  match m with
  | 1 => 0
  | 2 => 31
  | 3 => 31 + feb
  | 4 => 62 + feb
  | 5 => 92 + feb
  | 6 => 123 + feb
  | 7 => 153 + feb
  | 8 => 184 + feb
  | 9 => 215 + feb
  | 10 => 245 + feb
  | 11 => 276 + feb
  | _ => 306 + feb

/-- Day count of `y-m-d` from 0000-01-01 in the proleptic Gregorian
calendar (year 0 is a leap year). -/
def absDay (y m d : Nat) : Nat :=
  365 * y + (y + 3) / 4 - (y + 99) / 100 + (y + 399) / 400
    + daysBeforeMonth (isLeap y) m + (d - 1)

/-- The instant (epoch milliseconds) at 00:00:00 UTC of `y-m-d`.
1970-01-01 has absolute day number 719528. -/
def midnightMs (y m d : Nat) : Int :=
  ((absDay y m d : Int) - 719528) * 86400000

/-- A calendar-valid year/month/day triple. -/
def validDate (y m d : Nat) : Bool :=
  1 ≤ m && m ≤ 12 && 1 ≤ d && d ≤ daysInMonth y m

/-- Split a character list at every `'-'` (the accumulator holds the
current field reversed). -/
def splitDash : List Char → List Char → List (List Char)
  | [], acc => [acc.reverse]
  | c :: rest, acc =>
    if c = '-' then acc.reverse :: splitDash rest []
    else splitDash rest (c :: acc)

/-- The numeric value of a non-empty all-digit character list. -/
def digitsToNat (cs : List Char) : Option Nat :=
  if cs.isEmpty then none
  else if cs.all Char.isDigit then
    some (cs.foldl (fun n c => 10 * n + (c.toNat - 48)) 0)
  else none

/-- Split a string of the shape `YYYY-MM-DD` into its numeric components;
`none` when the shape does not match. -/
def parseYMD (s : String) : Option (Nat × Nat × Nat) :=
  match splitDash s.toList [] with
  | [ys, ms, ds] =>
    if ys.length = 4 && ms.length = 2 && ds.length = 2 then
      match digitsToNat ys, digitsToNat ms, digitsToNat ds with
      | some y, some m, some d => some (y, m, d)
      | _, _, _ => none
    else none
  | _ => none

/-- Modelled from the spec: the host runtime's `new Date(dateStr)` applied
to the strings the Date Parser is specified on (section 4.2): a valid
`YYYY-MM-DD` string yields the instant at start-of-day (UTC midnight) of
that date; a string that cannot be parsed into a valid date yields an
invalid date (modelled as `none`, the `isNaN(date.getTime())` case). -/
def jsParseDate (s : String) : Option Int :=
  match parseYMD s with
  | some (y, m, d) => if validDate y m d then some (midnightMs y m d) else none
  | none => none

/-- `parseDate` (businessLogic.js lines 35-41): delegates to the host date
parser and fails with `InvalidDateFormat` on an invalid date. -/
def parseDate (s : String) : Except Err Int :=
  match jsParseDate s with
  | none => .error .invalidDateFormat
  | some t => .ok t

/-! ## Author Queryability Checker (`validateQueryableAuthor`,
businessLogic.js lines 47-65)

The probe search is modelled by an `Except ApiError Unit` value: `.ok ()`
when the dummy search succeeds (its result count is irrelevant - the code
never inspects the data), `.error e` when Octokit throws. -/

/-- Bool-valued substring test on character lists. -/
def listContainsSub (pat : List Char) : List Char → Bool
  | [] => pat.isEmpty
  | c :: rest => pat.isPrefixOf (c :: rest) || listContainsSub pat rest

/-- `message.includes(pat)` of JS strings. -/
def strContains (msg pat : String) : Bool :=
  listContainsSub pat.toList msg.toList

/-- The message fragment GitHub attaches to its 422 rejection of
unsearchable users. -/
def unsearchableMsg : String := "The listed users cannot be searched"

/-- `validateQueryableAuthor`: `true` when the probe succeeds, `false`
exactly on a 422 error containing `unsearchableMsg`, and otherwise a
`QueryabilityCheckFailed` error wrapping the original error's message. -/
def validateQueryableAuthor (probe : Except ApiError Unit) (username : String) :
    Except Err Bool :=
  match probe with
  | .ok _ => .ok true
  | .error e =>
    if e.status == 422 && strContains e.message unsearchableMsg then .ok false
    else .error (.queryabilityCheckFailed username e.message)

/-! ## Pull Request Finder (`fetchPullRequests`, businessLogic.js
lines 72-130)

The search endpoint is modelled by `search : String → Nat → List SearchItem`
(query string and page number to the page's items), and the per-username
queryability outcome by `queryable : String → Bool` (the Boolean result of
a successful `validateQueryableAuthor`; its error path is settled
separately on `validateQueryableAuthor` itself, since a rejected
`Promise.all` aborts `fetchPullRequests` before any list is returned).
The `while (true)` pagination loop is given explicit fuel, modelling that
a remote endlessly serving full pages keeps the JS loop running. -/

/-- JS `String.prototype.toLowerCase` (ASCII case folding, which covers
GitHub logins), mapped over the characters. -/
def jsToLower (s : String) : String := ⟨s.data.map Char.toLower⟩

/-- `allPublic.every((isPublic) => isPublic)` over the mapped checks. -/
def fprAllPublic (queryable : String → Bool) (usernames : List String) : Bool :=
  (usernames.map queryable).all (fun b => b)

/-- The search query string built by `fetchPullRequests` (lines 73-102):
date-range clause, then repo/org scope, then - only when every username is
queryable - the OR-combined `author:` clause, parenthesized when there is
more than one username. -/
def buildQuery (usernames : List String) (org : String) (repo : Option String)
    (sinceStr : String) (untilStr : Option String) (allPublic : Bool) : String :=
  let base :=
    match untilStr with
    | some u => "type:pr is:merged merged:" ++ sinceStr ++ ".." ++ u
    | none => "type:pr is:merged merged:>=" ++ sinceStr
  let scopeQ :=
    match repo with
    | some r =>
      if r.contains '/' then base ++ " repo:" ++ r
      else base ++ " repo:" ++ org ++ "/" ++ r
    | none => base ++ " org:" ++ org
  if allPublic then
    let userQueries :=
      String.intercalate " OR " (usernames.map (fun u => "author:" ++ u))
    if usernames.length > 1 then scopeQ ++ " (" ++ userQueries ++ ")"
    else scopeQ ++ " " ++ userQueries
  else scopeQ

/-- The pagination loop (lines 104-122): request page `page`; an empty page
stops without contributing items, a short page (< 100 items) stops after
contributing its items, a full page contributes its items and advances to
the next page.  Returns the concatenated items and the number of requests
issued; exhausted fuel models the still-running loop as `([], 0)`. -/
def searchLoop (search : Nat → List SearchItem) : Nat → Nat → List SearchItem × Nat
  | 0, _ => ([], 0)
  | fuel + 1, page =>
    let items := search page
    if items.length = 0 then ([], 1)
    else if items.length < 100 then (items, 1)
    else
      let r := searchLoop search fuel (page + 1)
      (items ++ r.1, r.2 + 1)

/-- `fetchPullRequests`: build the query (with the author clause embedded
exactly when all usernames are queryable), page through the search results,
and - when at least one username is not queryable - post-filter the items
by case-insensitive login membership in the username list. -/
def fetchPullRequests (queryable : String → Bool)
    (search : String → Nat → List SearchItem)
    (usernames : List String) (org : String) (repo : Option String)
    (sinceStr : String) (untilStr : Option String) (fuel : Nat) :
    List SearchItem :=
  let allPublic := fprAllPublic queryable usernames
  let query := buildQuery usernames org repo sinceStr untilStr allPublic
  let prs := (searchLoop (search query) fuel 1).1
  if allPublic then prs
  else prs.filter (fun pr => (usernames.map jsToLower).contains (jsToLower pr.login))

/-! ## Ready-Time Resolver (`fetchReadyTime`, businessLogic.js
lines 139-156) -/

/-- The resolver's search over the fetched timeline events
(`events.find((e) => e.event === 'ready_for_review')` and the fallback):
the first `ready_for_review` event's timestamp, else the fallback creation
instant. -/
def fetchReadyTime (events : List TimelineEvent) (fallbackCreatedAt : Int) : Int :=
  match events.find? (fun e => e.event == "ready_for_review") with
  | some e => e.created_at
  | none => fallbackCreatedAt

/-- `fetchReadyTime` including its single timeline request: the code issues
exactly one `listEventsForTimeline` call with `per_page: 100` and no page
parameter, so the events it inspects are the first 100 events of the PR's
timeline. -/
def fetchReadyTimeApi (timeline : List TimelineEvent) (fallbackCreatedAt : Int) : Int :=
  fetchReadyTime (timeline.take 100) fallbackCreatedAt

/-! ## Duration Aggregator (`calculateAverageDuration`, businessLogic.js
lines 183-231)

The detail endpoint is modelled by `fd : String → Except Err PRDetail`
(`GET pull_request.url`; an `.error` models a rejected request) and the
timeline endpoint by `ft : String → String → Nat → Except Err (List
TimelineEvent)` (owner, repo name, PR number to the fetched events).
Durations in hours are exact rationals: `durationMs / (1000 * 60 * 60)`. -/

/-- One iteration of the aggregation loop (lines 189-228): fetch the detail
of the item's `pull_request.url`; an unmerged PR is skipped (`.ok none`);
otherwise resolve the ready time from the fetched timeline and build the
`DurationRecord` with the signed duration in hours.  Errors of either
remote call propagate. -/
def processItem (fd : String → Except Err PRDetail)
    (ft : String → String → Nat → Except Err (List TimelineEvent))
    (prItem : SearchItem) : Except Err (Option DurationRecord) :=
  match fd prItem.url with
  | .error e => .error e
  | .ok prData =>
    match prData.merged_at with
    | none => .ok none
    | some mergeTime =>
      match ft prData.owner prData.repoName prData.number with
      | .error e => .error e
      | .ok events =>
        let readyTime := fetchReadyTime events prData.created_at
        let durationHours : ℚ := ((mergeTime - readyTime : Int) : ℚ) / (1000 * 60 * 60)
        .ok (some ⟨prItem.url, readyTime, mergeTime, durationHours⟩)

/-- `calculateAverageDuration`: process the items in order, accumulating
the running total, the count of merged items and the record list; the first
failing remote call aborts the whole aggregation with its error. -/
def calculateAverageDuration (fd : String → Except Err PRDetail)
    (ft : String → String → Nat → Except Err (List TimelineEvent)) :
    List SearchItem → Except Err AggregateResult
  | [] => .ok ⟨0, 0, []⟩
  | prItem :: rest =>
    match processItem fd ft prItem with
    | .error e => .error e
    | .ok none => calculateAverageDuration fd ft rest
    | .ok (some record) =>
      match calculateAverageDuration fd ft rest with
      | .error e => .error e
      | .ok agg =>
        .ok ⟨record.durationHours + agg.totalDurationHours, agg.count + 1,
             record :: agg.prDataList⟩

/-! ## CLI entry point (`main`, src/unnamed/part_000 lines 73-112)

Only the part the claims are about: what `main` does with the aggregation
outcome - the `count > 0` guard around the average, the no-PRs branch, and
the catch-all that reports the error and exits with a non-zero code. -/

/-- The observable outcome of a run. -/
inductive RunOutcome where
  | failed (e : Err)
  | reported (avgDuration : ℚ) (count : Nat) (prDataList : List DurationRecord)
  | noPullRequests
deriving DecidableEq, Repr

/-- `main`'s handling of the aggregation result (part_000 lines 87-111):
the average `totalDurationHours / count` is computed and reported only
under the `count > 0` guard; an error is caught, reported, and the process
exits non-zero. -/
def mainRun (res : Except Err AggregateResult) : RunOutcome :=
  match res with
  | .error e => .failed e
  | .ok r =>
    if r.count > 0 then
      .reported (r.totalDurationHours / (r.count : ℚ)) r.count r.prDataList
    else .noPullRequests

/-- The process exit status signalled by an outcome (part_000 line 110:
`process.exit(1)` in the catch block). -/
def exitCode : RunOutcome → Nat
  | .failed _ => 1
  | _ => 0

/-! ## Helper lemmas -/

/-- `find?` over a list that starts with elements failing the predicate,
followed by a satisfying element, returns that element. -/
theorem find_first (p : TimelineEvent → Bool) :
    ∀ (pre : List TimelineEvent) (e : TimelineEvent) (post : List TimelineEvent),
      (∀ x ∈ pre, p x = false) → p e = true →
      (pre ++ e :: post).find? p = some e
  | [], e, post, _, he => by
    rw [List.nil_append, List.find?_cons_of_pos _ he]
  | x :: xs, e, post, hpre, he => by
    have hx : ¬ p x = true := by
      simp [hpre x (List.mem_cons_self x xs)]
    rw [List.cons_append, List.find?_cons_of_neg _ hx]
    exact find_first p xs e post (fun y hy => hpre y (List.mem_cons_of_mem x hy)) he

/-- Every item produced by the pagination loop came from some page of the
search endpoint. -/
theorem mem_searchLoop (search : Nat → List SearchItem) :
    ∀ (fuel page : Nat) (it : SearchItem),
      it ∈ (searchLoop search fuel page).1 → ∃ p, it ∈ search p
  | 0, _, _, h => absurd h (by simp [searchLoop])
  | fuel + 1, page, it, h => by
    simp only [searchLoop] at h
    by_cases h0 : (search page).length = 0
    · simp [h0] at h
    · by_cases hlt : (search page).length < 100
      · simp [h0, hlt] at h
        exact ⟨page, h⟩
      · simp [h0, hlt] at h
        rcases h with h' | h'
        · exact ⟨page, h'⟩
        · exact mem_searchLoop search fuel (page + 1) it h'

/-- An empty or short page stops the loop after the single request for it. -/
theorem searchLoop_stop (search : Nat → List SearchItem) (fuel page : Nat)
    (h : (search page).length < 100) :
    searchLoop search (fuel + 1) page =
      (if (search page).length = 0 then [] else search page, 1) := by
  simp only [searchLoop]
  by_cases h0 : (search page).length = 0
  · simp [h0]
  · simp [h0, h]

/-- A full page contributes its items and the loop continues on the next
page number. -/
theorem searchLoop_cont (search : Nat → List SearchItem) (fuel page : Nat)
    (h : (search page).length = 100) :
    searchLoop search (fuel + 1) page =
      (search page ++ (searchLoop search fuel (page + 1)).1,
        (searchLoop search fuel (page + 1)).2 + 1) := by
  simp only [searchLoop]
  rw [h]
  norm_num

/-! ## Claims -/

/-- C2: for the timeline event list the Ready-Time Resolver inspects, no
`ready_for_review` event yields the fallback creation instant, and when
such events exist (one, or several after draft toggling), the timestamp of
the first one in timeline order is returned. -/
theorem c2_ready_time_resolver (events : List TimelineEvent) (fallback : Int) :
    ((∀ e ∈ events, e.event ≠ "ready_for_review") →
      fetchReadyTime events fallback = fallback)
    ∧ (∀ (pre : List TimelineEvent) (e : TimelineEvent) (post : List TimelineEvent),
        events = pre ++ e :: post →
        (∀ x ∈ pre, x.event ≠ "ready_for_review") →
        e.event = "ready_for_review" →
        fetchReadyTime events fallback = e.created_at) := by
  constructor
  · intro h
    have hfind : events.find? (fun e => e.event == "ready_for_review") = none :=
      List.find?_eq_none.mpr (fun e he => by simpa using h e he)
    unfold fetchReadyTime
    rw [hfind]
  · intro pre e post heq hpre he
    subst heq
    have hfind := find_first (fun x => x.event == "ready_for_review") pre e post
      (fun x hx => by simpa using hpre x hx) (by simpa using he)
    unfold fetchReadyTime
    rw [hfind]

/-- C2 witness: a timeline without the event falls back to the creation
instant `1`; a timeline with two `ready_for_review` events (timestamps `7`
then `9`) resolves to the first one, `7`. -/
theorem c2_witness :
    fetchReadyTime [⟨"commented", 5⟩] 1 = 1
    ∧ fetchReadyTime
        [⟨"commented", 5⟩, ⟨"ready_for_review", 7⟩, ⟨"ready_for_review", 9⟩] 1 = 7 := by
  constructor
  · exact (c2_ready_time_resolver [⟨"commented", 5⟩] 1).1 (by decide)
  · exact (c2_ready_time_resolver
        [⟨"commented", 5⟩, ⟨"ready_for_review", 7⟩, ⟨"ready_for_review", 9⟩] 1).2
      [⟨"commented", 5⟩] ⟨"ready_for_review", 7⟩ [⟨"ready_for_review", 9⟩]
      rfl (by decide) rfl

/-- C10: the resolver issues a single timeline request of page size 100, so
when the first 100 timeline events contain no `ready_for_review` event, it
returns the fallback creation instant even though such an event exists
later in the timeline. -/
theorem c10_timeline_truncation (timeline : List TimelineEvent) (fallback : Int)
    (h100 : ∀ e ∈ timeline.take 100, e.event ≠ "ready_for_review")
    (hexists : ∃ e ∈ timeline, e.event = "ready_for_review") :
    fetchReadyTimeApi timeline fallback = fallback := by
  have hfind : (timeline.take 100).find? (fun e => e.event == "ready_for_review") = none :=
    List.find?_eq_none.mpr (fun e he => by simpa using h100 e he)
  unfold fetchReadyTimeApi fetchReadyTime
  rw [hfind]

/-- C10 witness: 100 `commented` events followed by a `ready_for_review`
event at timestamp `7`; the resolver still returns the fallback `3`. -/
theorem c10_witness :
    fetchReadyTimeApi (List.replicate 100 ⟨"commented", 0⟩ ++ [⟨"ready_for_review", 7⟩]) 3
      = 3 :=
  c10_timeline_truncation _ 3 (by decide) ⟨⟨"ready_for_review", 7⟩, by decide, rfl⟩

/-- C4 counterexample: on `"-2d"` - a string that parses to a negative,
hence not positive, duration - `parsePeriod` does not fail with
`InvalidPeriodFormat`: the JS truthiness test `!durationMs` only rejects
`null` and `0`, so the negative value passes through and the returned
instant (`now - (-172800000)`, here with `now = 0`) lies strictly after
now. -/
theorem c4_counterexample :
    parsePeriod parseDurationModel 0 "-2d" = .ok 172800000
    ∧ (0 : Int) < 172800000 := by
  exact ⟨rfl, by decide⟩

/-- C4 (amended): `parsePeriod` fails with `InvalidPeriodFormat` exactly
when the string parses to no duration (malformed) or to a zero duration;
a string parsing to a positive duration yields `now` minus that duration,
an instant strictly before now; a string parsing to a negative duration
(such as `"-2d"`) is NOT rejected and yields an instant strictly after
now. -/
theorem c4_amended_period (pd : String → Option Int) (now : Int) (s : String) :
    (parsePeriod pd now s = .error .invalidPeriodFormat ↔ (pd s = none ∨ pd s = some 0))
    ∧ (∀ d : Int, pd s = some d → 0 < d →
        parsePeriod pd now s = .ok (now - d) ∧ now - d < now)
    ∧ (∀ d : Int, pd s = some d → d < 0 →
        parsePeriod pd now s = .ok (now - d) ∧ now < now - d) := by
  refine ⟨?_, ?_, ?_⟩
  · cases hpd : pd s with
    | none => simp [parsePeriod, hpd]
    | some d =>
      by_cases hd : d = 0
      · subst hd; simp [parsePeriod, hpd]
      · simp [parsePeriod, hpd, hd]
  · intro d hpd hd
    have hne : d ≠ 0 := by omega
    exact ⟨by simp [parsePeriod, hpd, hne], by omega⟩
  · intro d hpd hd
    have hne : d ≠ 0 := by omega
    exact ⟨by simp [parsePeriod, hpd, hne], by omega⟩

/-- C4 witness: `"2d"` parses to two days and yields an instant two days
before `now = 0`; `"nonsense"` and the zero duration `"0s"` fail with
`InvalidPeriodFormat`. -/
theorem c4_witness :
    (parsePeriod parseDurationModel 0 "2d" = .ok (0 - 172800000)
      ∧ (0 - 172800000 : Int) < 0)
    ∧ parsePeriod parseDurationModel 0 "nonsense" = .error .invalidPeriodFormat
    ∧ parsePeriod parseDurationModel 0 "0s" = .error .invalidPeriodFormat := by
  refine ⟨(c4_amended_period parseDurationModel 0 "2d").2.1 172800000 rfl (by decide),
    ?_, ?_⟩
  · exact ((c4_amended_period parseDurationModel 0 "nonsense").1).mpr (.inl rfl)
  · exact ((c4_amended_period parseDurationModel 0 "0s").1).mpr (.inr rfl)

/-- C6: the Author Queryability Checker returns `true` whenever the probe
search succeeds, returns `false` exactly when the probe fails with a
422-status error whose message contains the documented unsearchable-users
text, and on every other failure propagates a `QueryabilityCheckFailed`
error carrying the original error message. -/
theorem c6_queryability_checker (probe : Except ApiError Unit) (username : String) :
    (probe = .ok () → validateQueryableAuthor probe username = .ok true)
    ∧ (validateQueryableAuthor probe username = .ok false ↔
        ∃ e, probe = .error e ∧ e.status = 422
          ∧ strContains e.message unsearchableMsg = true)
    ∧ (∀ e, probe = .error e →
        ¬(e.status = 422 ∧ strContains e.message unsearchableMsg = true) →
        validateQueryableAuthor probe username =
          .error (.queryabilityCheckFailed username e.message)) := by
  refine ⟨?_, ?_, ?_⟩
  · rintro rfl; rfl
  · constructor
    · intro h
      cases probe with
      | ok u => cases u; simp [validateQueryableAuthor] at h
      | error e =>
        refine ⟨e, rfl, ?_⟩
        by_cases hc : (e.status == 422 && strContains e.message unsearchableMsg) = true
        · have hc' := hc
          simp only [Bool.and_eq_true, beq_iff_eq] at hc'
          exact hc'
        · simp [validateQueryableAuthor, hc] at h
    · rintro ⟨e, rfl, h422, hmsg⟩
      simp [validateQueryableAuthor, h422, hmsg]
  · intro e hpe hn
    subst hpe
    have hc : ¬((e.status == 422 && strContains e.message unsearchableMsg) = true) := by
      intro hcc
      simp only [Bool.and_eq_true, beq_iff_eq] at hcc
      exact hn hcc
    simp [validateQueryableAuthor, hc]

/-- C6 witness: a successful probe yields `true`; GitHub's documented 422
rejection yields `false`; a 500 error propagates as
`QueryabilityCheckFailed` with the original message. -/
theorem c6_witness :
    validateQueryableAuthor (.ok ()) "alice" = .ok true
    ∧ validateQueryableAuthor
        (.error ⟨422, "Validation Failed: The listed users cannot be searched"⟩)
        "bob" = .ok false
    ∧ validateQueryableAuthor (.error ⟨500, "boom"⟩) "bob" =
        .error (.queryabilityCheckFailed "bob" "boom") := by
  refine ⟨(c6_queryability_checker (.ok ()) "alice").1 rfl, ?_, ?_⟩
  · exact ((c6_queryability_checker
        (.error ⟨422, "Validation Failed: The listed users cannot be searched"⟩)
        "bob").2.1).mpr
      ⟨⟨422, "Validation Failed: The listed users cannot be searched"⟩, rfl, rfl, by decide⟩
  · exact (c6_queryability_checker (.error ⟨500, "boom"⟩) "bob").2.2
      ⟨500, "boom"⟩ rfl (by decide)

/-- C9: for every string of the shape `YYYY-MM-DD` denoting a calendar-valid
date, `parseDate` returns the instant at UTC midnight (start-of-day) of
that date, and for every string the host parser cannot turn into a valid
date it fails with `InvalidDateFormat`. -/
theorem c9_date_parsing (s : String) :
    (∀ y m d : Nat, parseYMD s = some (y, m, d) → validDate y m d = true →
      parseDate s = .ok (midnightMs y m d))
    ∧ (jsParseDate s = none → parseDate s = .error .invalidDateFormat) := by
  constructor
  · intro y m d hp hv
    unfold parseDate jsParseDate
    rw [hp]
    simp [hv]
  · intro h
    unfold parseDate
    rw [h]

/-- C9 witness: `"2022-01-31"` parses to its UTC midnight instant
(1643587200000 ms); `"2022-02-29"` (not a leap year) and `"garbage"` fail
with `InvalidDateFormat`. -/
theorem c9_witness :
    parseDate "2022-01-31" = .ok 1643587200000
    ∧ parseDate "2022-02-29" = .error .invalidDateFormat
    ∧ parseDate "garbage" = .error .invalidDateFormat := by
  refine ⟨?_, ?_, ?_⟩
  · have h := (c9_date_parsing "2022-01-31").1 2022 1 31 (by decide) (by decide)
    have hv : midnightMs 2022 1 31 = 1643587200000 := by decide
    rw [h, hv]
  · exact (c9_date_parsing "2022-02-29").2 (by decide)
  · exact (c9_date_parsing "garbage").2 (by decide)

/-- When every item's detail fetch succeeds with no merge instant, the
aggregation returns the empty aggregate. -/
theorem calcAvg_no_merged (fd : String → Except Err PRDetail)
    (ft : String → String → Nat → Except Err (List TimelineEvent)) :
    ∀ (prItems : List SearchItem),
      (∀ pr ∈ prItems, ∃ dd, fd pr.url = .ok dd ∧ dd.merged_at = none) →
      calculateAverageDuration fd ft prItems = .ok ⟨0, 0, []⟩
  | [], _ => rfl
  | pr :: rest, h => by
    obtain ⟨dd, hfd, hm⟩ := h pr (List.mem_cons_self pr rest)
    have hrest := calcAvg_no_merged fd ft rest
      (fun q hq => h q (List.mem_cons_of_mem pr hq))
    simp [calculateAverageDuration, processItem, hfd, hm, hrest]

/-- C3: when no fetched detail has a merge instant (zero merged items),
`calculateAverageDuration` returns `totalDurationHours = 0`, `count = 0`
and an empty record list, and the caller's `count > 0` guard means no
average is computed: the run ends in the no-pull-requests outcome. -/
theorem c3_zero_merged (fd : String → Except Err PRDetail)
    (ft : String → String → Nat → Except Err (List TimelineEvent))
    (prItems : List SearchItem)
    (h : ∀ pr ∈ prItems, ∃ dd, fd pr.url = .ok dd ∧ dd.merged_at = none) :
    calculateAverageDuration fd ft prItems = .ok ⟨0, 0, []⟩
    ∧ mainRun (calculateAverageDuration fd ft prItems) = .noPullRequests := by
  have key := calcAvg_no_merged fd ft prItems h
  exact ⟨key, by rw [key]; rfl⟩

/-- C3 witness: two unmerged PRs aggregate to the empty result and the run
reports no pull requests. -/
theorem c3_witness :
    calculateAverageDuration (fun _ => .ok ⟨none, 0, "o", "r", 1⟩)
        (fun _ _ _ => .ok []) [⟨"alice", "u1"⟩, ⟨"bob", "u2"⟩] = .ok ⟨0, 0, []⟩
    ∧ mainRun (calculateAverageDuration (fun _ => .ok ⟨none, 0, "o", "r", 1⟩)
        (fun _ _ _ => .ok []) [⟨"alice", "u1"⟩, ⟨"bob", "u2"⟩]) = .noPullRequests :=
  c3_zero_merged _ _ _ (fun _ _ => ⟨⟨none, 0, "o", "r", 1⟩, rfl, rfl⟩)

/-- A failing remote call for any item makes the whole aggregation return
an error. -/
theorem calcAvg_error_of_item_error (fd : String → Except Err PRDetail)
    (ft : String → String → Nat → Except Err (List TimelineEvent)) :
    ∀ (prItems : List SearchItem),
      (∃ pr ∈ prItems, ∃ e, processItem fd ft pr = .error e) →
      ∃ e, calculateAverageDuration fd ft prItems = .error e
  | [], h => absurd h (by simp)
  | pr :: rest, h => by
    obtain ⟨q, hq, e, he⟩ := h
    rcases List.mem_cons.mp hq with rfl | hmem
    · exact ⟨e, by simp [calculateAverageDuration, he]⟩
    · cases hp : processItem fd ft pr with
      | error e' => exact ⟨e', by simp [calculateAverageDuration, hp]⟩
      | ok o =>
        obtain ⟨e2, he2⟩ := calcAvg_error_of_item_error fd ft rest ⟨q, hmem, e, he⟩
        cases o with
        | none => exact ⟨e2, by simp [calculateAverageDuration, hp, he2]⟩
        | some record => exact ⟨e2, by simp [calculateAverageDuration, hp, he2]⟩

/-- C7: if fetching any single item's detail or timeline fails, the
aggregation returns an error - no partial total, count or record list - and
the run reports the failure and signals non-zero completion, printing no
average. -/
theorem c7_abort_on_failure (fd : String → Except Err PRDetail)
    (ft : String → String → Nat → Except Err (List TimelineEvent))
    (prItems : List SearchItem)
    (h : ∃ pr ∈ prItems, ∃ e, processItem fd ft pr = .error e) :
    ∃ e, calculateAverageDuration fd ft prItems = .error e
      ∧ mainRun (calculateAverageDuration fd ft prItems) = .failed e
      ∧ exitCode (mainRun (calculateAverageDuration fd ft prItems)) = 1 := by
  obtain ⟨e, he⟩ := calcAvg_error_of_item_error fd ft prItems h
  exact ⟨e, he, by rw [he]; rfl, by rw [he]; rfl⟩

/-- C7 witness: the second of two items fails its detail fetch; the whole
aggregation fails and the run exits non-zero. -/
theorem c7_witness :
    ∃ e, calculateAverageDuration
        (fun u => if u = "u2" then .error (.remoteRequestFailed "boom")
          else .ok ⟨none, 0, "o", "r", 1⟩)
        (fun _ _ _ => .ok []) [⟨"alice", "u1"⟩, ⟨"bob", "u2"⟩] = .error e
      ∧ mainRun (calculateAverageDuration
          (fun u => if u = "u2" then .error (.remoteRequestFailed "boom")
            else .ok ⟨none, 0, "o", "r", 1⟩)
          (fun _ _ _ => .ok []) [⟨"alice", "u1"⟩, ⟨"bob", "u2"⟩]) = .failed e
      ∧ exitCode (mainRun (calculateAverageDuration
          (fun u => if u = "u2" then .error (.remoteRequestFailed "boom")
            else .ok ⟨none, 0, "o", "r", 1⟩)
          (fun _ _ _ => .ok []) [⟨"alice", "u1"⟩, ⟨"bob", "u2"⟩])) = 1 :=
  c7_abort_on_failure _ _ _
    ⟨⟨"bob", "u2"⟩, List.mem_cons_of_mem _ (List.mem_cons_self _ _),
      .remoteRequestFailed "boom", rfl⟩

/-- C8: for a merged PR whose merge instant precedes its resolved ready
instant, the aggregator computes the signed duration
`(merge - ready) / (1000 * 60 * 60)` hours, a negative value, and passes it
through unmodified into the `DurationRecord` and the running total - it is
never clamped to zero. -/
theorem c8_negative_duration (fd : String → Except Err PRDetail)
    (ft : String → String → Nat → Except Err (List TimelineEvent))
    (prItem : SearchItem) (dd : PRDetail) (m : Int) (events : List TimelineEvent)
    (hfd : fd prItem.url = .ok dd) (hm : dd.merged_at = some m)
    (hft : ft dd.owner dd.repoName dd.number = .ok events)
    (hneg : m < fetchReadyTime events dd.created_at) :
    processItem fd ft prItem =
      .ok (some ⟨prItem.url, fetchReadyTime events dd.created_at, m,
        ((m - fetchReadyTime events dd.created_at : Int) : ℚ) / (1000 * 60 * 60)⟩)
    ∧ ((m - fetchReadyTime events dd.created_at : Int) : ℚ) / (1000 * 60 * 60) < 0
    ∧ calculateAverageDuration fd ft [prItem] =
      .ok ⟨((m - fetchReadyTime events dd.created_at : Int) : ℚ) / (1000 * 60 * 60), 1,
        [⟨prItem.url, fetchReadyTime events dd.created_at, m,
          ((m - fetchReadyTime events dd.created_at : Int) : ℚ) / (1000 * 60 * 60)⟩]⟩ := by
  have hstep : processItem fd ft prItem =
      .ok (some ⟨prItem.url, fetchReadyTime events dd.created_at, m,
        ((m - fetchReadyTime events dd.created_at : Int) : ℚ) / (1000 * 60 * 60)⟩) := by
    simp [processItem, hfd, hm, hft]
  have hneg' : ((m - fetchReadyTime events dd.created_at : Int) : ℚ) / (1000 * 60 * 60) < 0 := by
    apply div_neg_of_neg_of_pos
    · exact_mod_cast sub_neg.mpr hneg
    · norm_num
  refine ⟨hstep, hneg', ?_⟩
  simp [calculateAverageDuration, hstep]

/-- C8 witness: a PR created (and resolved ready) at 3600000 ms but merged
at 0 ms yields the duration -1 hour, recorded and totalled unclamped. -/
theorem c8_witness :
    processItem (fun _ => .ok ⟨some 0, 3600000, "o", "r", 1⟩) (fun _ _ _ => .ok [])
        ⟨"alice", "u1"⟩ =
      .ok (some ⟨"u1", 3600000, 0, ((0 - 3600000 : Int) : ℚ) / (1000 * 60 * 60)⟩)
    ∧ ((0 - 3600000 : Int) : ℚ) / (1000 * 60 * 60) < 0
    ∧ calculateAverageDuration (fun _ => .ok ⟨some 0, 3600000, "o", "r", 1⟩)
        (fun _ _ _ => .ok []) [⟨"alice", "u1"⟩] =
      .ok ⟨((0 - 3600000 : Int) : ℚ) / (1000 * 60 * 60), 1,
        [⟨"u1", 3600000, 0, ((0 - 3600000 : Int) : ℚ) / (1000 * 60 * 60)⟩]⟩ :=
  c8_negative_duration (fun _ => .ok ⟨some 0, 3600000, "o", "r", 1⟩)
    (fun _ _ _ => .ok []) ⟨"alice", "u1"⟩ ⟨some 0, 3600000, "o", "r", 1⟩ 0 []
    rfl rfl rfl (by decide)

/-- C5: the pagination loop requests pages of 100 items with an advancing
page number and stops exactly when a page returns zero items or fewer than
100 items (a full page makes it continue with the next page number); in
particular, 100 items on page 1 and 0 on page 2 terminate after two
requests with the 100 items, and 100 items on page 1 and 1 item on page 2
terminate after two requests with 101 items in total. -/
theorem c5_pagination :
    (∀ (search : Nat → List SearchItem) (fuel page : Nat),
      (search page).length < 100 →
      searchLoop search (fuel + 1) page =
        (if (search page).length = 0 then [] else search page, 1))
    ∧ (∀ (search : Nat → List SearchItem) (fuel page : Nat),
        (search page).length = 100 →
        searchLoop search (fuel + 1) page =
          (search page ++ (searchLoop search fuel (page + 1)).1,
            (searchLoop search fuel (page + 1)).2 + 1))
    ∧ (∀ (search : Nat → List SearchItem) (fuel : Nat), 2 ≤ fuel →
        (search 1).length = 100 → (search 2).length = 0 →
        searchLoop search fuel 1 = (search 1, 2))
    ∧ (∀ (search : Nat → List SearchItem) (fuel : Nat), 2 ≤ fuel →
        (search 1).length = 100 → (search 2).length = 1 →
        searchLoop search fuel 1 = (search 1 ++ search 2, 2)
          ∧ (search 1 ++ search 2).length = 101) := by
  refine ⟨searchLoop_stop, searchLoop_cont, ?_, ?_⟩
  · intro search fuel hfuel h1 h2
    have hf : ∃ f, fuel = f + 2 := ⟨fuel - 2, by omega⟩
    obtain ⟨f, rfl⟩ := hf
    rw [show f + 2 = (f + 1) + 1 from rfl, searchLoop_cont search (f + 1) 1 h1,
      searchLoop_stop search f 2 (by omega)]
    simp [h2, List.length_eq_zero.mp h2]
  · intro search fuel hfuel h1 h2
    have hf : ∃ f, fuel = f + 2 := ⟨fuel - 2, by omega⟩
    obtain ⟨f, rfl⟩ := hf
    rw [show f + 2 = (f + 1) + 1 from rfl, searchLoop_cont search (f + 1) 1 h1,
      searchLoop_stop search f 2 (by omega)]
    constructor
    · simp [show ¬(search 2).length = 0 by omega]
    · simp [h1, h2]

/-- C5 witness: with a remote serving 100 items on page 1 and nothing
after, the loop makes 2 requests and returns the 100 items; with 100 items
on page 1 and 1 item on page 2, it makes 2 requests and returns 101
items. -/
theorem c5_witness :
    searchLoop (fun p => if p = 1 then List.replicate 100 ⟨"a", "u"⟩ else []) 5 1 =
      (List.replicate 100 ⟨"a", "u"⟩, 2)
    ∧ searchLoop (fun p => if p = 1 then List.replicate 100 ⟨"a", "u"⟩
        else if p = 2 then [⟨"b", "v"⟩] else []) 5 1 =
      (List.replicate 100 ⟨"a", "u"⟩ ++ [⟨"b", "v"⟩], 2)
    ∧ (List.replicate 100 (⟨"a", "u"⟩ : SearchItem) ++ ([⟨"b", "v"⟩] : List SearchItem)).length = 101 := by
  refine ⟨?_, ?_, ?_⟩
  · exact c5_pagination.2.2.1 (fun p => if p = 1 then List.replicate 100 ⟨"a", "u"⟩ else [])
      5 (by omega) (by simp) (by simp)
  · exact (c5_pagination.2.2.2 (fun p => if p = 1 then List.replicate 100 ⟨"a", "u"⟩
      else if p = 2 then [⟨"b", "v"⟩] else []) 5 (by omega) (by simp) (by simp)).1
  · exact (c5_pagination.2.2.2 (fun p => if p = 1 then List.replicate 100 ⟨"a", "u"⟩
      else if p = 2 then [⟨"b", "v"⟩] else []) 5 (by omega) (by simp) (by simp)).2

/-- C1: for a non-empty username list, every item returned by
`fetchPullRequests` has an author login matching some requested username
case-insensitively - in the embedded-filter path (all usernames queryable)
under the assumption that the remote search honours the `author:` clauses
of the query it was sent, and unconditionally in the post-filter path
(some username unsearchable), where the result is exactly the fetched
items whose author is in the set, never an item from a non-member. -/
theorem c1_author_guarantee (queryable : String → Bool)
    (search : String → Nat → List SearchItem)
    (usernames : List String) (org : String) (repo : Option String)
    (sinceStr : String) (untilStr : Option String) (fuel : Nat)
    (hne : usernames ≠ [])
    (hremote : fprAllPublic queryable usernames = true →
      ∀ (page : Nat) (it : SearchItem),
        it ∈ search (buildQuery usernames org repo sinceStr untilStr true) page →
        (usernames.map jsToLower).contains (jsToLower it.login) = true) :
    (∀ it ∈ fetchPullRequests queryable search usernames org repo sinceStr untilStr fuel,
      (usernames.map jsToLower).contains (jsToLower it.login) = true)
    ∧ (fprAllPublic queryable usernames = false →
        ∀ it : SearchItem,
          it ∈ fetchPullRequests queryable search usernames org repo sinceStr untilStr fuel ↔
            (it ∈ (searchLoop
                (search (buildQuery usernames org repo sinceStr untilStr false)) fuel 1).1
              ∧ (usernames.map jsToLower).contains (jsToLower it.login) = true)) := by
  cases hap : fprAllPublic queryable usernames with
  | true =>
    have heq : fetchPullRequests queryable search usernames org repo sinceStr untilStr fuel =
        (searchLoop (search (buildQuery usernames org repo sinceStr untilStr true)) fuel 1).1 := by
      simp [fetchPullRequests, hap]
    constructor
    · intro it hit
      rw [heq] at hit
      obtain ⟨p, hp⟩ := mem_searchLoop _ fuel 1 it hit
      exact hremote hap p it hp
    · intro hfalse
      exact absurd hfalse (by decide)
  | false =>
    have heq : fetchPullRequests queryable search usernames org repo sinceStr untilStr fuel =
        ((searchLoop (search (buildQuery usernames org repo sinceStr untilStr false)) fuel 1).1).filter
          (fun pr => (usernames.map jsToLower).contains (jsToLower pr.login)) := by
      simp [fetchPullRequests, hap]
    constructor
    · intro it hit
      rw [heq] at hit
      exact (List.mem_filter.mp hit).2
    · intro _ it
      rw [heq]
      exact List.mem_filter

/-- C1 witness: with `["alice"]` requested and "alice" unsearchable, a
fetched page holding items by `"Alice"` and `"bob"` post-filters to exactly
the `"Alice"` item (case-insensitive match), excluding the non-member. -/
theorem c1_witness :
    ((⟨"Alice", "u1"⟩ : SearchItem) ∈ fetchPullRequests (fun _ => false)
        (fun _ p => if p = 1 then [⟨"Alice", "u1"⟩, ⟨"bob", "u2"⟩] else [])
        ["alice"] "acme" none "2022-01-01" none 5)
    ∧ ¬((⟨"bob", "u2"⟩ : SearchItem) ∈ fetchPullRequests (fun _ => false)
        (fun _ p => if p = 1 then [⟨"Alice", "u1"⟩, ⟨"bob", "u2"⟩] else [])
        ["alice"] "acme" none "2022-01-01" none 5) := by
  have h := (c1_author_guarantee (fun _ => false)
      (fun _ p => if p = 1 then [⟨"Alice", "u1"⟩, ⟨"bob", "u2"⟩] else [])
      ["alice"] "acme" none "2022-01-01" none 5 (by decide)
      (fun hap => absurd hap (by decide))).2 (by decide)
  constructor
  · exact (h ⟨"Alice", "u1"⟩).mpr ⟨by decide, by decide⟩
  · intro hmem
    have hb := (h ⟨"bob", "u2"⟩).mp hmem
    exact absurd hb.2 (by decide)

end PRDuration
